import Mathlib

/-!
Verification development for the clinic-management CRUD backend
(`app/models.py`, `app/schemas.py`, `app/crud.py`, `app/routers/patients.py`,
`app/routers/appointments.py`, `app/main.py`).

The relational store is embedded as lists of rows kept in insertion order
(the primary-key autoincrement order of the two tables).  Timestamps are
abstract instants modelled as naturals; the current time is threaded as an
explicit `now` argument to the operations that stamp timestamps.
`server_default=func.now()` stamps `created_at` on insert; `onupdate=func.now()`
stamps `updated_at` exactly when the session flush emits an UPDATE for the
row, which happens only on a net change — when some assigned value differs
from the value already stored.  Assignments that leave every attribute equal
to its stored value (an empty patch, or provided values equal to the stored
ones) flush nothing and stamp nothing.  A flushed UPDATE or the ORM's own
pre-delete bookkeeping can also violate a NOT NULL column, in which case the
commit raises IntegrityError and the transaction leaves the store unchanged.
-/

namespace MedCrud

/-- A row of the `patients` table (`app/models.py`, class `Patient`).
`first_name`, `last_name`, `date_of_birth` are declared `nullable=False` in
the DDL, but the in-session attribute can still be assigned `None` by the
update loop in `app/crud.py`, so they are carried as `Option` here. -/
structure PatientRow where
  id : Nat
  first_name : Option String
  last_name : Option String
  date_of_birth : Option Nat
  gender : Option String
  phone_number : Option String
  email : Option String
  address : Option String
  created_at : Nat
  updated_at : Option Nat
  deriving Repr, DecidableEq

/-- A row of the `appointments` table (`app/models.py`, class `Appointment`).
`patient_id` has a foreign key to `patients.id` declared `ondelete="CASCADE"`. -/
structure AppointmentRow where
  id : Nat
  patient_id : Nat
  appointment_date : Option Nat
  description : Option String
  status : Option String
  created_at : Nat
  updated_at : Option Nat
  deriving Repr, DecidableEq

/-- The storage state: the two tables in insertion (primary key) order,
plus the autoincrement counters for the next assigned ids. -/
structure Store where
  patients : List PatientRow
  appointments : List AppointmentRow
  next_patient_id : Nat
  next_appointment_id : Nat
  deriving Repr, DecidableEq

/-- The state of one field of an incoming JSON object: absent from the
payload, present as an explicit `null`, or present with a value. -/
inductive JField (α : Type) where
  | missing : JField α
  | nullv : JField α
  | val : α → JField α
  deriving Repr, DecidableEq

/-- A field-level validation error: (field name, message), as collected by
the validation layer for the 422 detail. -/
abbrev FieldError := String × String

/-- Validated create shape for patients (`app/schemas.py`, `PatientCreate`
via `PatientBase`). -/
structure PatientCreate where
  first_name : String
  last_name : String
  date_of_birth : Nat
  gender : Option String
  phone_number : Option String
  email : Option String
  address : Option String
  deriving Repr, DecidableEq

/-- Validated update shape for patients (`app/schemas.py`, `PatientUpdate`):
every field optional.  The outer `Option` is pydantic's set/unset tracking
(`none` = field omitted from the payload), the inner `Option` is the value
(`some none` = field explicitly set to null). -/
structure PatientUpdate where
  first_name : Option (Option String)
  last_name : Option (Option String)
  date_of_birth : Option (Option Nat)
  gender : Option (Option String)
  phone_number : Option (Option String)
  email : Option (Option String)
  address : Option (Option String)
  deriving Repr, DecidableEq

/-- Validated create shape for appointments (`app/schemas.py`,
`AppointmentCreate` via `AppointmentBase`).  `status` is `Optional[str]`
defaulting to `"scheduled"` when omitted; an explicit null stays `none`. -/
structure AppointmentCreate where
  patient_id : Nat
  appointment_date : Nat
  description : Option String
  status : Option String
  deriving Repr, DecidableEq

/-- Validated update shape for appointments (`app/schemas.py`,
`AppointmentUpdate`): only `appointment_date`, `description`, `status`,
all optional and unconstrained. -/
structure AppointmentUpdate where
  appointment_date : Option (Option Nat)
  description : Option (Option String)
  status : Option (Option String)
  deriving Repr, DecidableEq

/- ### Validation layer (pydantic semantics of `app/schemas.py`) -/

/-- Raw wire payload for creating a patient: each declared field of
`PatientBase` in its JSON state. -/
structure RawPatientCreate where
  first_name : JField String
  last_name : JField String
  date_of_birth : JField Nat
  gender : JField String
  phone_number : JField String
  email : JField String
  address : JField String
  deriving Repr, DecidableEq

/-- Raw wire payload for a patient update (`PatientUpdate` fields). -/
structure RawPatientUpdate where
  first_name : JField String
  last_name : JField String
  date_of_birth : JField Nat
  gender : JField String
  phone_number : JField String
  email : JField String
  address : JField String
  deriving Repr, DecidableEq

/-- Raw wire payload for an appointment update (`AppointmentUpdate` fields). -/
structure RawAppointmentUpdate where
  appointment_date : JField Nat
  description : JField String
  status : JField String
  deriving Repr, DecidableEq

/-- Required `str` field with a `max_length` bound
(`Field(..., max_length=n)`). -/
def reqStr (fname : String) (n : Nat) (j : JField String) :
    Except (List FieldError) String :=
  match j with
  | .missing => .error [(fname, "field required")]
  | .nullv => .error [(fname, "none is not an allowed value")]
  | .val s =>
    if s.length ≤ n then .ok s
    else .error [(fname, "ensure this value has at most " ++ toString n ++ " characters")]

/-- Required `date` field. -/
def reqDate (fname : String) (j : JField Nat) : Except (List FieldError) Nat :=
  match j with
  | .missing => .error [(fname, "field required")]
  | .nullv => .error [(fname, "none is not an allowed value")]
  | .val d => .ok d

/-- Unconstrained `Optional[str]` field: omitted and explicit null both
become `None`. -/
def optStr (j : JField String) : Option String :=
  match j with
  | .missing => none
  | .nullv => none
  | .val s => some s

/-- `Optional[EmailStr]` field.  The exact grammar accepted by `EmailStr`
lives in the external email-validator package, so it is taken as a
parameter `emailOk`. -/
def chkEmail (emailOk : String → Bool) (j : JField String) :
    Except (List FieldError) (Option String) :=
  match j with
  | .missing => .ok none
  | .nullv => .ok none
  | .val s =>
    if emailOk s then .ok (some s)
    else .error [("email", "value is not a valid email address")]

/-- The error list carried by a failed field check (empty when it passed). -/
def errsOf {α : Type} (e : Except (List FieldError) α) : List FieldError :=
  match e with
  | .ok _ => []
  | .error l => l

/-- Pydantic validation of a `PatientCreate` payload: all field checks run
and their errors are collected; the shape is produced only when every check
passes. -/
def validatePatientCreate (emailOk : String → Bool) (r : RawPatientCreate) :
    Except (List FieldError) PatientCreate :=
  let e1 := reqStr "first_name" 50 r.first_name
  let e2 := reqStr "last_name" 50 r.last_name
  let e3 := reqDate "date_of_birth" r.date_of_birth
  let e4 := chkEmail emailOk r.email
  match e1, e2, e3, e4 with
  | .ok a, .ok b, .ok c, .ok em =>
    .ok { first_name := a, last_name := b, date_of_birth := c,
          gender := optStr r.gender, phone_number := optStr r.phone_number,
          email := em, address := optStr r.address }
  | _, _, _, _ => .error (errsOf e1 ++ errsOf e2 ++ errsOf e3 ++ errsOf e4)

/-- Optional `str` field of an update shape with a `max_length` bound
(`Field(None, max_length=n)`): omitted stays unset, explicit null is a set
null, a value must satisfy the bound. -/
def updStr (fname : String) (n : Nat) (j : JField String) :
    Except (List FieldError) (Option (Option String)) :=
  match j with
  | .missing => .ok none
  | .nullv => .ok (some none)
  | .val s =>
    if s.length ≤ n then .ok (some (some s))
    else .error [(fname, "ensure this value has at most " ++ toString n ++ " characters")]

/-- Unconstrained optional field of an update shape. -/
def updAny {α : Type} (j : JField α) : Option (Option α) :=
  match j with
  | .missing => none
  | .nullv => some none
  | .val a => some (some a)

/-- `Optional[EmailStr]` field of an update shape. -/
def updEmail (emailOk : String → Bool) (j : JField String) :
    Except (List FieldError) (Option (Option String)) :=
  match j with
  | .missing => .ok none
  | .nullv => .ok (some none)
  | .val s =>
    if emailOk s then .ok (some (some s))
    else .error [("email", "value is not a valid email address")]

/-- Pydantic validation of a `PatientUpdate` payload: every field is
optional (an explicit null passes for all of them, including `first_name`,
`last_name` and `date_of_birth`); only `max_length` and the email syntax
are checked on provided values. -/
def validatePatientUpdate (emailOk : String → Bool) (r : RawPatientUpdate) :
    Except (List FieldError) PatientUpdate :=
  let e1 := updStr "first_name" 50 r.first_name
  let e2 := updStr "last_name" 50 r.last_name
  let e4 := updEmail emailOk r.email
  match e1, e2, e4 with
  | .ok a, .ok b, .ok em =>
    .ok { first_name := a, last_name := b, date_of_birth := updAny r.date_of_birth,
          gender := updAny r.gender, phone_number := updAny r.phone_number,
          email := em, address := updAny r.address }
  | _, _, _ => .error (errsOf e1 ++ errsOf e2 ++ errsOf e4)

/-- Pydantic validation of an `AppointmentUpdate` payload: all three fields
are optional and carry no constraint, so validation never fails. -/
def validateAppointmentUpdate (r : RawAppointmentUpdate) :
    Except (List FieldError) AppointmentUpdate :=
  .ok { appointment_date := updAny r.appointment_date,
        description := updAny r.description,
        status := updAny r.status }

/- ### Data-access layer (`app/crud.py`) -/

/-- Lookup `db.query(models.Patient).filter(...id == patient_id).first()`:
the first row whose primary key matches. -/
def get_patient (st : Store) (patient_id : Nat) : Option PatientRow :=
  st.patients.find? (fun r => r.id == patient_id)

/-- SQL `OFFSET skip` as emitted by `.offset(skip)`; a negative offset
skips nothing. -/
def applyOffset {α : Type} (skip : Int) (rows : List α) : List α :=
  rows.drop skip.toNat

/-- SQL `LIMIT limit` as emitted by `.limit(limit)`; a negative limit means
no limit. -/
def applyLimit {α : Type} (limit : Int) (rows : List α) : List α :=
  if limit < 0 then rows else rows.take limit.toNat

/-- Listing `db.query(models.Patient).offset(skip).limit(limit).all()`:
rows in the table's primary-key order. -/
def get_patients (st : Store) (skip limit : Int) : List PatientRow :=
  applyLimit limit (applyOffset skip st.patients)

/-- Creation `create_patient`: build the row from the validated shape, `db.add`,
`db.commit` (assigns the autoincrement id, stamps `created_at` via
`server_default=func.now()`, leaves `updated_at` null), `db.refresh`,
return the row. -/
def create_patient (st : Store) (now : Nat) (p : PatientCreate) :
    PatientRow × Store :=
  let row : PatientRow :=
    { id := st.next_patient_id, first_name := some p.first_name,
      last_name := some p.last_name, date_of_birth := some p.date_of_birth,
      gender := p.gender, phone_number := p.phone_number, email := p.email,
      address := p.address, created_at := now, updated_at := none }
  (row, { st with patients := st.patients ++ [row],
                  next_patient_id := st.next_patient_id + 1 })

/-- The `setattr` loop of `update_patient`: assign exactly the fields in
`patient.dict(exclude_unset=True)` onto the loaded row; a field that was
explicitly null is in the dict and overwrites with null, an omitted field
is not in the dict and the row keeps its prior value. -/
def applyPatientUpdate (row : PatientRow) (u : PatientUpdate) : PatientRow :=
  { row with
    first_name := u.first_name.getD row.first_name,
    last_name := u.last_name.getD row.last_name,
    date_of_birth := u.date_of_birth.getD row.date_of_birth,
    gender := u.gender.getD row.gender,
    phone_number := u.phone_number.getD row.phone_number,
    email := u.email.getD row.email,
    address := u.address.getD row.address }

/-- Replace the patient row with primary key `pid` in the table (what the
flush of a mutated session writes back). -/
def writePatient (st : Store) (pid : Nat) (row : PatientRow) : Store :=
  { st with patients := st.patients.map (fun r => if r.id == pid then row else r) }

/-- A Python `IntegrityError` raised by `db.commit()` when a flushed
statement violates a declared constraint. -/
structure PyIntegrityError where
  message : String
  deriving Repr, DecidableEq

/-- Whether a patient row violates the `nullable=False` declarations of
`app/models.py` lines 10–12 (`first_name`, `last_name`, `date_of_birth`):
an UPDATE writing such a row fails the NOT NULL constraint. -/
def patientNotNullViolated (r : PatientRow) : Bool :=
  r.first_name.isNone || r.last_name.isNone || r.date_of_birth.isNone

/-- Update `update_patient`: load by id (`None` when absent), assign the
explicitly set fields, commit.  The flush compares every assigned value to
the stored one and emits an UPDATE only on a net change; with no net change
(empty patch, or values equal to the stored ones) nothing is written and
`onupdate=func.now()` never fires.  A flushed UPDATE that writes null into
a NOT NULL column makes the commit raise IntegrityError: nothing is
returned or persisted and the store is unchanged.  Otherwise the UPDATE is
emitted, `updated_at` is stamped, and the updated record is returned. -/
def update_patient (st : Store) (now : Nat) (patient_id : Nat)
    (u : PatientUpdate) : Except PyIntegrityError (Option PatientRow × Store) :=
  match get_patient st patient_id with
  | none => .ok (none, st)
  | some row =>
    let merged := applyPatientUpdate row u
    if merged = row then .ok (some row, st)
    else if patientNotNullViolated merged then
      .error { message := "NOT NULL constraint failed: patients" }
    else
      let updated := { merged with updated_at := some now }
      .ok (some updated, writePatient st patient_id updated)

/-- Hard delete `delete_patient`.  The relationship declared at
`app/models.py` line 20 has no delete cascade and no `passive_deletes`, so
on `db.delete(patient)` the ORM loads the owned appointments and nulls
their `patient_id` before emitting the parent DELETE; that column is
`nullable=False`, so whenever the patient owns at least one appointment the
commit raises IntegrityError and nothing is removed (the DDL-level
`ON DELETE CASCADE` is never reached, and no `PRAGMA foreign_keys` is set
anywhere in the source).  A patient owning no appointments is deleted and
`True` is returned; an absent id returns `False` with no mutation. -/
def delete_patient (st : Store) (patient_id : Nat) :
    Except PyIntegrityError (Bool × Store) :=
  match get_patient st patient_id with
  | some _ =>
    if st.appointments.any (fun a => a.patient_id == patient_id) then
      .error { message := "NOT NULL constraint failed: appointments.patient_id" }
    else
      .ok (true,
        { st with patients := st.patients.filter (fun r => !(r.id == patient_id)) })
  | none => .ok (false, st)

/-- Lookup by primary key for appointments. -/
def get_appointment (st : Store) (appointment_id : Nat) : Option AppointmentRow :=
  st.appointments.find? (fun r => r.id == appointment_id)

/-- Listing `get_appointments`: offset/limit over the table in primary-key order. -/
def get_appointments (st : Store) (skip limit : Int) : List AppointmentRow :=
  applyLimit limit (applyOffset skip st.appointments)

/-- Creation `create_appointment`: build the row from the validated shape and insert.
No referential check of `patient_id` happens here. -/
def create_appointment (st : Store) (now : Nat) (c : AppointmentCreate) :
    AppointmentRow × Store :=
  let row : AppointmentRow :=
    { id := st.next_appointment_id, patient_id := c.patient_id,
      appointment_date := some c.appointment_date, description := c.description,
      status := c.status, created_at := now, updated_at := none }
  (row, { st with appointments := st.appointments ++ [row],
                  next_appointment_id := st.next_appointment_id + 1 })

/-- The `setattr` loop of `update_appointment`. -/
def applyAppointmentUpdate (row : AppointmentRow) (u : AppointmentUpdate) :
    AppointmentRow :=
  { row with
    appointment_date := u.appointment_date.getD row.appointment_date,
    description := u.description.getD row.description,
    status := u.status.getD row.status }

/-- Replace the appointment row with primary key `aid` in the table. -/
def writeAppointment (st : Store) (aid : Nat) (row : AppointmentRow) : Store :=
  { st with appointments := st.appointments.map (fun r => if r.id == aid then row else r) }

/-- Whether an appointment row violates the `nullable=False` declaration of
`app/models.py` line 27 (`appointment_date`, the only non-nullable column
reachable through the update shape). -/
def appointmentNotNullViolated (r : AppointmentRow) : Bool :=
  r.appointment_date.isNone

/-- Update `update_appointment`: same flush semantics as `update_patient` —
an UPDATE (and the `onupdate` stamp) only on a net change, IntegrityError
when the merged row nulls a NOT NULL column, otherwise persist and return
the stamped record. -/
def update_appointment (st : Store) (now : Nat) (appointment_id : Nat)
    (u : AppointmentUpdate) : Except PyIntegrityError (Option AppointmentRow × Store) :=
  match get_appointment st appointment_id with
  | none => .ok (none, st)
  | some row =>
    let merged := applyAppointmentUpdate row u
    if merged = row then .ok (some row, st)
    else if appointmentNotNullViolated merged then
      .error { message := "NOT NULL constraint failed: appointments" }
    else
      let updated := { merged with updated_at := some now }
      .ok (some updated, writeAppointment st appointment_id updated)

/-- Soft delete `delete_appointment`.  When the row exists, assign
`status = "cancelled"` and commit.  If the status already was "cancelled"
the assignment is not a net change: the flush emits no UPDATE,
`onupdate=func.now()` never fires, and the row — `updated_at` keeping its
old, possibly null, value — is returned unchanged.  Otherwise the UPDATE is
emitted, `updated_at` is stamped, and the updated record is returned.  When
absent, return `None` with no mutation. -/
def delete_appointment (st : Store) (now : Nat) (appointment_id : Nat) :
    Option AppointmentRow × Store :=
  match get_appointment st appointment_id with
  | none => (none, st)
  | some row =>
    if row.status = some "cancelled" then (some row, st)
    else
      let updated := { row with status := some "cancelled", updated_at := some now }
      (some updated, writeAppointment st appointment_id updated)

/- ### Request handlers (`app/routers`) and the 422 handler (`app/main.py`) -/

/-- Outcome of `POST /api/appointments/` (`app/routers/appointments.py`,
`create_appointment` route). -/
inductive CreateApptResult where
  | created : AppointmentRow → CreateApptResult
  | patientNotFound : String → CreateApptResult
  deriving Repr, DecidableEq

/-- The appointment-creation route: resolve `patient_id` via
`crud.get_patient` first; when absent, raise 404 with a detail naming the
id and perform no insert; otherwise call `crud.create_appointment`. -/
def create_appointment_route (st : Store) (now : Nat) (c : AppointmentCreate) :
    CreateApptResult × Store :=
  match get_patient st c.patient_id with
  | none =>
    (.patientNotFound ("Patient with id " ++ toString c.patient_id ++ " not found"), st)
  | some _ =>
    let r := create_appointment st now c
    (.created r.1, r.2)

/-- Outcome of a list route. -/
inductive ListResult (α : Type) where
  | ok : List α → ListResult α
  | validationFailure : String → ListResult α
  deriving Repr, DecidableEq

/-- Whether the list route produced rows rather than an error. -/
def ListResult.isOk {α : Type} : ListResult α → Bool
  | .ok _ => true
  | .validationFailure _ => false

/-- Route `GET /api/patients/` (`app/routers/patients.py`, `read_patients`):
`skip` and `limit` are declared as plain `int` query parameters with no
bound, so every integer — negative included — reaches
`crud.get_patients` unchanged. -/
def read_patients_route (st : Store) (skip limit : Int) : ListResult PatientRow :=
  .ok (get_patients st skip limit)

/-- Route `GET /api/appointments/` (`read_appointments`): same, no bound declared. -/
def read_appointments_route (st : Store) (skip limit : Int) :
    ListResult AppointmentRow :=
  .ok (get_appointments st skip limit)

/-- The names bound at module level in `app/main.py` (its imports and
top-level definitions).  `jsonable_encoder` is used at line 157 but is not
among them. -/
def mainModuleScope : List String :=
  ["logging", "sys", "FastAPI", "Request", "status", "Response", "Depends",
   "CORSMiddleware", "JSONResponse", "PlainTextResponse", "traceback",
   "Callable", "Any", "Dict", "Optional", "RequestValidationError",
   "HTTPException", "ValidationError", "patients", "appointments",
   "settings", "Base", "engine", "get_db", "Session", "inspect",
   "log_format", "log_formatter", "root_logger", "console_handler",
   "file_handler", "uvicorn_logger", "uvicorn_access", "sqlalchemy_logger",
   "logger", "global_exception_handler", "log_requests", "app",
   "on_startup", "validation_exception_handler", "root"]

/-- An HTTP response as far as the claims observe it: status code and,
when present, the structured per-field validation detail. -/
structure HttpResp where
  statusCode : Nat
  validationDetail : Option (List FieldError)
  deriving Repr, DecidableEq

/-- A Python `NameError` raised while a handler body runs. -/
structure PyNameError where
  missingName : String
  deriving Repr, DecidableEq

/-- Handler `validation_exception_handler` (`app/main.py`, lines 151–158): intends
to return a 422 `JSONResponse` built with `jsonable_encoder`, but looking
that name up in the module scope raises `NameError` when it was never
imported. -/
def validation_exception_handler (errs : List FieldError) :
    Except PyNameError HttpResp :=
  if mainModuleScope.contains "jsonable_encoder" then
    .ok { statusCode := 422, validationDetail := some errs }
  else
    .error { missingName := "jsonable_encoder" }

/-- Starlette runs the registered exception handler; if the handler itself
raises, the server-error middleware produces a plain 500. -/
def runExceptionHandler (r : Except PyNameError HttpResp) : HttpResp :=
  match r with
  | .ok resp => resp
  | .error _ => { statusCode := 500, validationDetail := none }

/-- Route `POST /api/patients/` end to end: the payload is validated before the
route body runs; on failure the `RequestValidationError` goes to
`validation_exception_handler` and no store operation happens; on success
`crud.create_patient` runs and 201 is returned. -/
def post_patients_route (emailOk : String → Bool) (st : Store) (now : Nat)
    (raw : RawPatientCreate) : HttpResp × Store :=
  match validatePatientCreate emailOk raw with
  | .error errs => (runExceptionHandler (validation_exception_handler errs), st)
  | .ok p =>
    let r := create_patient st now p
    ({ statusCode := 201, validationDetail := none }, r.2)

/-- Well-formedness of a store state: each table's rows are in strictly
increasing primary-key order (the autoincrement insertion order), which
`create` maintains. -/
def Store.WF (st : Store) : Prop :=
  st.patients.Pairwise (fun a b => a.id < b.id) ∧
  st.appointments.Pairwise (fun a b => a.id < b.id)

/- ### Helper lemmas -/

/-- Writing a row back over every match of `p` makes the lookup return the
written row, provided the lookup previously succeeded. -/
theorem find?_map_if {α : Type} (p : α → Bool) (final : α) (hf : p final = true) :
    ∀ (l : List α) (row : α), l.find? p = some row →
      (l.map (fun r => if p r then final else r)).find? p = some final := by
  intro l
  induction l with
  | nil => intro row h; simp [List.find?] at h
  | cons a t ih =>
    intro row h
    by_cases hpa : p a = true
    · simp [hpa, List.find?_cons_of_pos _ hf]
    · rw [List.find?_cons_of_neg _ (by simp [hpa])] at h
      have ha : (fun r => if p r then final else r) a = a := by simp [hpa]
      simp only [List.map_cons, ha]
      rw [List.find?_cons_of_neg _ (by simp [hpa])]
      exact ih row h

/- ### Concrete fixtures used by witnesses and counterexamples -/

/-- A patient row as created fresh (null `updated_at`). -/
def pRow1 : PatientRow :=
  { id := 1, first_name := some "Ann", last_name := some "Lee",
    date_of_birth := some 19900101, gender := none, phone_number := none,
    email := some "ann@example.com", address := none,
    created_at := 100, updated_at := none }

/-- A scheduled appointment owned by patient 1. -/
def aRow1 : AppointmentRow :=
  { id := 1, patient_id := 1, appointment_date := some 500,
    description := some "checkup", status := some "scheduled",
    created_at := 120, updated_at := none }

/-- One patient owning one appointment. -/
def stA : Store :=
  { patients := [pRow1], appointments := [aRow1],
    next_patient_id := 2, next_appointment_id := 2 }

/-- A patient row that was mutated before (non-null `updated_at`). -/
def pRow2 : PatientRow :=
  { id := 2, first_name := some "Bo", last_name := some "Kim",
    date_of_birth := some 19850615, gender := some "M", phone_number := none,
    email := none, address := none, created_at := 40, updated_at := some 50 }

/-- A store holding only `pRow2`. -/
def stB : Store :=
  { patients := [pRow2], appointments := [],
    next_patient_id := 3, next_appointment_id := 1 }

/-- A never-mutated patient row (null `updated_at`). -/
def pRow3 : PatientRow :=
  { id := 3, first_name := some "Cai", last_name := some "Roy",
    date_of_birth := some 20000101, gender := none, phone_number := none,
    email := none, address := none, created_at := 70, updated_at := none }

/-- A store holding only `pRow3`. -/
def stC : Store :=
  { patients := [pRow3], appointments := [],
    next_patient_id := 4, next_appointment_id := 1 }

/-- Three appointments for patient 1, in insertion order. -/
def bRow1 : AppointmentRow :=
  { id := 1, patient_id := 1, appointment_date := some 510,
    description := none, status := some "scheduled",
    created_at := 10, updated_at := none }

/-- Second of the three appointments. -/
def bRow2 : AppointmentRow :=
  { id := 2, patient_id := 1, appointment_date := some 520,
    description := none, status := some "scheduled",
    created_at := 11, updated_at := none }

/-- Third of the three appointments. -/
def bRow3 : AppointmentRow :=
  { id := 3, patient_id := 1, appointment_date := some 530,
    description := none, status := some "scheduled",
    created_at := 12, updated_at := none }

/-- One patient with three appointments, for the pagination scenario. -/
def stD : Store :=
  { patients := [pRow1], appointments := [bRow1, bRow2, bRow3],
    next_patient_id := 2, next_appointment_id := 4 }

/-- An appointment already soft-deleted (status cancelled). -/
def aRow2 : AppointmentRow :=
  { id := 2, patient_id := 1, appointment_date := some 600,
    description := none, status := some "cancelled",
    created_at := 130, updated_at := some 140 }

/-- A store whose only appointment is already cancelled. -/
def stE : Store :=
  { patients := [pRow1], appointments := [aRow2],
    next_patient_id := 2, next_appointment_id := 3 }

/-- An appointment created directly with status "cancelled" (the create
shape permits it), hence never mutated: null `updated_at`. -/
def aRow3 : AppointmentRow :=
  { id := 3, patient_id := 1, appointment_date := some 700,
    description := none, status := some "cancelled",
    created_at := 150, updated_at := none }

/-- A store whose only appointment is cancelled with a null `updated_at`. -/
def stF : Store :=
  { patients := [pRow1], appointments := [aRow3],
    next_patient_id := 2, next_appointment_id := 4 }

/-- The empty store. -/
def stEmpty : Store :=
  { patients := [], appointments := [],
    next_patient_id := 1, next_appointment_id := 1 }

/-- A create payload for an appointment referencing patient 7. -/
def apptForPatient7 : AppointmentCreate :=
  { patient_id := 7, appointment_date := 1000,
    description := none, status := some "scheduled" }

/-- The update shape with no field set. -/
def emptyPatientUpdate : PatientUpdate :=
  { first_name := none, last_name := none, date_of_birth := none,
    gender := none, phone_number := none, email := none, address := none }

/-- A nonempty patch setting only `gender`, to a value differing from the
stored one in the fixtures below. -/
def genderPatch : PatientUpdate :=
  { first_name := none, last_name := none, date_of_birth := none,
    gender := some (some "F"), phone_number := none, email := none,
    address := none }

/-- A nonempty patch setting `gender` to the value `pRow2` already stores. -/
def genderMPatch : PatientUpdate :=
  { first_name := none, last_name := none, date_of_birth := none,
    gender := some (some "M"), phone_number := none, email := none,
    address := none }

/-- A wire payload for creating a patient with every field absent. -/
def rawMissingAll : RawPatientCreate :=
  { first_name := .missing, last_name := .missing, date_of_birth := .missing,
    gender := .missing, phone_number := .missing, email := .missing,
    address := .missing }

/-- A patch whose three required-in-DDL fields are explicitly null. -/
def rawNullNames : RawPatientUpdate :=
  { first_name := .nullv, last_name := .nullv, date_of_birth := .nullv,
    gender := .missing, phone_number := .missing, email := .missing,
    address := .missing }

/-- The validated form of `rawNullNames`: the three fields are set to null. -/
def nullNamesUpdate : PatientUpdate :=
  { first_name := some none, last_name := some none, date_of_birth := some none,
    gender := none, phone_number := none, email := none, address := none }

/-- The store `stD` is well formed. -/
theorem stD_wf : stD.WF := by constructor <;> decide

/- ### Claim theorems -/

/-- Counterexample to claim C1 as stated: appointment 3 was created with
status "cancelled" (permitted by the unvalidated create shape) and a null
`updated_at`; soft-deleting it assigns the value it already stores, no
UPDATE is flushed, and the returned record's `updated_at` is still null —
not the current time. -/
theorem soft_delete_updated_at_counterexample :
    get_appointment stF 3 = some aRow3 ∧
    aRow3.status = some "cancelled" ∧
    aRow3.updated_at = none ∧
    delete_appointment stF 9 3 = (some aRow3, stF) := by
  decide

/-- Claim C1 as amended: for every appointment id present in the store,
`delete_appointment` leaves the row with status "cancelled", keeps it
retrievable with the appointment row count (and the patients table)
unchanged, and returns the record; `updated_at` is set to the current
(non-null) time exactly when the status actually changes — an appointment
already cancelled is returned unchanged with nothing written, `updated_at`
keeping its previous, possibly null, value.  For every id not present it
returns `none` and performs no mutation. -/
theorem spec_soft_delete_appointment (st : Store) (now aid : Nat) :
    (∀ row, get_appointment st aid = some row → row.status ≠ some "cancelled" →
      (delete_appointment st now aid).1 =
          some { row with status := some "cancelled", updated_at := some now } ∧
      get_appointment (delete_appointment st now aid).2 aid =
          some { row with status := some "cancelled", updated_at := some now } ∧
      (delete_appointment st now aid).2.appointments.length =
          st.appointments.length ∧
      (delete_appointment st now aid).2.patients = st.patients) ∧
    (∀ row, get_appointment st aid = some row → row.status = some "cancelled" →
      delete_appointment st now aid = (some row, st)) ∧
    (get_appointment st aid = none → delete_appointment st now aid = (none, st)) := by
  refine ⟨?_, ?_, ?_⟩
  · intro row h hne
    have h' : st.appointments.find? (fun r => r.id == aid) = some row := h
    have hid : (row.id == aid) = true := by
      have hx := List.find?_some h'
      simpa using hx
    refine ⟨?_, ?_, ?_, ?_⟩
    · simp only [delete_appointment, h, if_neg hne]
    · show ((delete_appointment st now aid).2.appointments).find? (fun r => r.id == aid) =
          some { row with status := some "cancelled", updated_at := some now }
      have h2 : (delete_appointment st now aid).2.appointments =
          st.appointments.map (fun r => if r.id == aid then
            { row with status := some "cancelled", updated_at := some now } else r) := by
        simp only [delete_appointment, h, if_neg hne, writeAppointment]
      rw [h2]
      exact find?_map_if (fun r => r.id == aid)
        { row with status := some "cancelled", updated_at := some now }
        hid st.appointments row h'
    · simp only [delete_appointment, h, if_neg hne, writeAppointment, List.length_map]
    · simp only [delete_appointment, h, if_neg hne, writeAppointment]
  · intro row h hc
    simp only [delete_appointment, h, if_pos hc]
  · intro h
    simp only [delete_appointment, h]

/-- Witness for the amended claim C1: soft-deleting the scheduled
appointment 1, the already-cancelled appointment 2, and the absent
appointment 99. -/
theorem spec_soft_delete_appointment_witness :
    (delete_appointment stA 9 1).1 =
        some { aRow1 with status := some "cancelled", updated_at := some 9 } ∧
    get_appointment (delete_appointment stA 9 1).2 1 =
        some { aRow1 with status := some "cancelled", updated_at := some 9 } ∧
    delete_appointment stE 9 2 = (some aRow2, stE) ∧
    delete_appointment stA 9 99 = (none, stA) :=
  ⟨((spec_soft_delete_appointment stA 9 1).1 aRow1 rfl (by decide)).1,
   ((spec_soft_delete_appointment stA 9 1).1 aRow1 rfl (by decide)).2.1,
   (spec_soft_delete_appointment stE 9 2).2.1 aRow2 rfl rfl,
   (spec_soft_delete_appointment stA 9 99).2.2 rfl⟩

/-- Claim C2: creating an appointment whose `patient_id` has no patient
never inserts a row — the route resolves the patient via `get_patient`
first and answers 404 with a detail naming the missing id, leaving the
store unchanged — while `create_appointment` itself performs no reference
re-validation: invoked directly it appends the row unconditionally. -/
theorem spec_appointment_reference_check (st : Store) (now : Nat)
    (c : AppointmentCreate) (h : get_patient st c.patient_id = none) :
    create_appointment_route st now c =
        (.patientNotFound ("Patient with id " ++ toString c.patient_id ++ " not found"), st) ∧
    (create_appointment st now c).2.appointments =
        st.appointments ++ [(create_appointment st now c).1] := by
  constructor
  · simp only [create_appointment_route, h]
  · rfl

/-- Witness for claim C2: an empty store and a payload referencing the
absent patient 7. -/
theorem spec_appointment_reference_check_witness :
    create_appointment_route stEmpty 3 apptForPatient7 =
        (.patientNotFound ("Patient with id " ++ toString apptForPatient7.patient_id ++ " not found"), stEmpty) ∧
    (create_appointment stEmpty 3 apptForPatient7).2.appointments =
        stEmpty.appointments ++ [(create_appointment stEmpty 3 apptForPatient7).1] :=
  spec_appointment_reference_check stEmpty 3 apptForPatient7 rfl

example :
    ("Patient with id " ++ toString apptForPatient7.patient_id ++ " not found") =
      "Patient with id 7 not found" := by
  decide

/-- Claim C3, evaluated at the failing input: patient 1 exists and owns
appointment 1, but `delete_patient` does not remove anything — the ORM
nulls the NOT NULL `appointments.patient_id` before the parent DELETE, so
the commit raises IntegrityError, the patient row and the appointment stay
retrievable, and none of the claimed postconditions hold.  The intended
hard-delete semantics works only for a patient who owns no appointments
(penultimate conjunct), and an absent id returns `false` unchanged. -/
theorem bug_patient_delete_cascade_integrity_error :
    get_patient stA 1 = some pRow1 ∧
    aRow1.patient_id = 1 ∧
    get_appointment stA 1 = some aRow1 ∧
    delete_patient stA 1 =
        .error { message := "NOT NULL constraint failed: appointments.patient_id" } ∧
    delete_patient stC 3 = .ok (true, { stC with patients := [] }) ∧
    delete_patient stA 99 = .ok (false, stA) :=
  ⟨rfl, rfl, rfl, rfl, rfl, rfl⟩

/-- Counterexample to claim C4 as stated: patient 2 exists with
`updated_at = some 50` and gender "M".  Updating at time 60 with the empty
shape, and likewise with a patch whose provided value equals the stored one
(gender "M"), flushes no UPDATE and returns the row with `updated_at` still
50 — not the current time. -/
theorem update_stamps_time_counterexample :
    get_patient stB 2 = some pRow2 ∧
    pRow2.updated_at = some 50 ∧
    pRow2.gender = some "M" ∧
    update_patient stB 60 2 emptyPatientUpdate = .ok (some pRow2, stB) ∧
    update_patient stB 60 2 genderMPatch = .ok (some pRow2, stB) ∧
    (some 50 : Option Nat) ≠ some 60 :=
  ⟨rfl, rfl, rfl, rfl, rfl, by decide⟩

/-- Claim C4 as amended: update returns `none` with no side effects when
the id is absent.  Otherwise it merges exactly the fields explicitly
present in the shape into the loaded row (omitted fields retain prior
values, an explicit null is merged as null and is distinguished from an
omitted field); when the merged row differs from the stored row and nulls
no NOT NULL column, `updated_at` is set to the current time, the row is
persisted, and the full updated record is returned; when the merge leaves
every field equal to its stored value (empty shape, or provided values all
equal to the stored ones) nothing is written and the row is returned with
`updated_at` unchanged; when the merge sets a NOT NULL column
(`first_name`, `last_name`, `date_of_birth`) to null the commit fails with
IntegrityError and nothing is returned or persisted. -/
theorem spec_update_merge_semantics (st : Store) (now pid : Nat)
    (u : PatientUpdate) :
    (get_patient st pid = none → update_patient st now pid u = .ok (none, st)) ∧
    (∀ row, get_patient st pid = some row → applyPatientUpdate row u = row →
      update_patient st now pid u = .ok (some row, st)) ∧
    (∀ row, get_patient st pid = some row → applyPatientUpdate row u ≠ row →
      patientNotNullViolated (applyPatientUpdate row u) = false →
      update_patient st now pid u =
          .ok (some { applyPatientUpdate row u with updated_at := some now },
               writePatient st pid
                 { applyPatientUpdate row u with updated_at := some now }) ∧
      get_patient
          (writePatient st pid { applyPatientUpdate row u with updated_at := some now })
          pid =
        some { applyPatientUpdate row u with updated_at := some now }) ∧
    (∀ row, get_patient st pid = some row → applyPatientUpdate row u ≠ row →
      patientNotNullViolated (applyPatientUpdate row u) = true →
      update_patient st now pid u =
          .error { message := "NOT NULL constraint failed: patients" }) := by
  refine ⟨?_, ?_, ?_, ?_⟩
  · intro h
    simp only [update_patient, h]
  · intro row h he
    simp only [update_patient, h]
    rw [if_pos he]
  · intro row h hne hok
    have h' : st.patients.find? (fun r => r.id == pid) = some row := h
    have hid : (row.id == pid) = true := by
      have hx := List.find?_some h'
      simpa using hx
    constructor
    · simp only [update_patient, h]
      rw [if_neg hne, if_neg (by simp [hok])]
    · show ((writePatient st pid
          { applyPatientUpdate row u with updated_at := some now }).patients).find?
            (fun r => r.id == pid) =
          some { applyPatientUpdate row u with updated_at := some now }
      simp only [writePatient]
      exact find?_map_if (fun r => r.id == pid)
        { applyPatientUpdate row u with updated_at := some now }
        hid st.patients row h'
  · intro row h hne hviol
    simp only [update_patient, h]
    rw [if_neg hne, if_pos hviol]

/-- Witness for the amended claim C4: an absent id, a same-value patch on
an existing row, a net-change patch on the same row, and a patch nulling a
NOT NULL column. -/
theorem spec_update_merge_semantics_witness :
    update_patient stB 60 99 genderPatch = .ok (none, stB) ∧
    update_patient stB 60 2 genderMPatch = .ok (some pRow2, stB) ∧
    update_patient stB 60 2 genderPatch =
        .ok (some { applyPatientUpdate pRow2 genderPatch with updated_at := some 60 },
             writePatient stB 2
               { applyPatientUpdate pRow2 genderPatch with updated_at := some 60 }) ∧
    update_patient stB 60 2 nullNamesUpdate =
        .error { message := "NOT NULL constraint failed: patients" } :=
  ⟨(spec_update_merge_semantics stB 60 99 genderPatch).1 rfl,
   (spec_update_merge_semantics stB 60 2 genderMPatch).2.1 pRow2 rfl rfl,
   ((spec_update_merge_semantics stB 60 2 genderPatch).2.2.1 pRow2 rfl
     (by decide) (by decide)).1,
   (spec_update_merge_semantics stB 60 2 nullNamesUpdate).2.2.2 pRow2 rfl
     (by decide) (by decide)⟩

/-- Counterexample to claim C5 as stated: patient 3 exists with a null
`updated_at`; after `update(id, empty shape)` the returned record still has
a null `updated_at` — it does not become non-null. -/
theorem empty_update_updated_at_counterexample :
    get_patient stC 3 = some pRow3 ∧
    pRow3.updated_at = none ∧
    update_patient stC 5 3 emptyPatientUpdate = .ok (some pRow3, stC) ∧
    pRow3.updated_at.isSome = false :=
  ⟨rfl, rfl, rfl, rfl⟩

/-- Claim C5 as amended: for every patient id present in the store,
updating with the shape that sets no field leaves every field of the row
unchanged, including `updated_at`, which retains its previous value (in
particular it stays null if it was null); nothing is written to the store. -/
theorem spec_empty_update_is_noop (st : Store) (now pid : Nat)
    (row : PatientRow) (h : get_patient st pid = some row) :
    update_patient st now pid emptyPatientUpdate = .ok (some row, st) := by
  simp only [update_patient, h]
  rw [if_pos (show applyPatientUpdate row emptyPatientUpdate = row from rfl)]

/-- Witness for the amended claim C5 on a concrete store. -/
theorem spec_empty_update_is_noop_witness :
    update_patient stC 5 3 emptyPatientUpdate = .ok (some pRow3, stC) :=
  spec_empty_update_is_noop stC 5 3 pRow3 rfl

/-- Counterexample to claim C6 as stated: listing with a negative `skip`
(and likewise a negative `limit`) does not fail with a validation error —
the route succeeds and the values reach the store query. -/
theorem negative_pagination_not_rejected :
    read_patients_route stA (-1) 100 = .ok [pRow1] ∧
    (read_patients_route stA (-1) 100).isOk = true ∧
    read_patients_route stA 0 (-5) = .ok [pRow1] :=
  ⟨rfl, rfl, rfl⟩

/-- Claim C6 as amended: for every `skip` and `limit`, negative included,
the list route performs no validation — the handler declares plain `int`
query parameters with no bound — and passes the values through to the
store query, never producing a validation failure. -/
theorem spec_negative_pagination_passthrough (st : Store) (skip limit : Int) :
    read_patients_route st skip limit = .ok (get_patients st skip limit) ∧
    (read_patients_route st skip limit).isOk = true :=
  ⟨rfl, rfl⟩

/-- Claim C7, evaluated at the failing input: `jsonable_encoder` is not
bound in the module scope of `app/main.py`, so although a malformed create
payload (here: every required field missing) is rejected by validation
before any store mutation, the registered 422 handler raises `NameError`
and the client receives a plain 500 without the per-field detail. -/
theorem bug_validation_handler_name_error :
    mainModuleScope.contains "jsonable_encoder" = false ∧
    validatePatientCreate (fun _ => true) rawMissingAll =
        .error [("first_name", "field required"), ("last_name", "field required"),
                ("date_of_birth", "field required")] ∧
    validation_exception_handler [("first_name", "field required")] =
        .error { missingName := "jsonable_encoder" } ∧
    post_patients_route (fun _ => true) stA 7 rawMissingAll =
        ({ statusCode := 500, validationDetail := none }, stA) := by
  refine ⟨?_, rfl, rfl, rfl⟩
  decide

/-- Claim C8: for every well-formed store and non-negative `skip` and
`limit`, listing appointments returns at most `limit` rows, and exactly the
contiguous slice of the table starting at position `skip` in primary-key
(insertion) order with no filtering; creation appends at the end of the
table, so listing with a small limit returns the first created rows. -/
theorem spec_list_pagination (st : Store) (hwf : st.WF) (skip limit : Int)
    (_hs : 0 ≤ skip) (hl : 0 ≤ limit) :
    (get_appointments st skip limit).length ≤ limit.toNat ∧
    get_appointments st skip limit =
        (st.appointments.drop skip.toNat).take limit.toNat ∧
    (get_appointments st skip limit).Pairwise (fun a b => a.id < b.id) ∧
    (∀ now c, (create_appointment st now c).2.appointments =
        st.appointments ++ [(create_appointment st now c).1]) := by
  have hlim : ¬ limit < 0 := not_lt.mpr hl
  have heq : get_appointments st skip limit =
      (st.appointments.drop skip.toNat).take limit.toNat := by
    simp only [get_appointments, applyLimit, applyOffset, if_neg hlim]
  refine ⟨?_, heq, ?_, ?_⟩
  · rw [heq]
    exact List.length_take_le _ _
  · rw [heq]
    exact hwf.2.sublist ((List.take_sublist _ _).trans (List.drop_sublist _ _))
  · intro now c
    rfl

/-- Witness for claim C8: three appointments created in order; listing with
limit 2 from offsets 0 and 1. -/
theorem spec_list_pagination_witness :
    (get_appointments stD 0 2).length ≤ (2 : Int).toNat ∧
    get_appointments stD 0 2 =
        (stD.appointments.drop (0 : Int).toNat).take (2 : Int).toNat ∧
    (get_appointments stD 1 2).length ≤ (2 : Int).toNat :=
  ⟨(spec_list_pagination stD stD_wf 0 2 (by decide) (by decide)).1,
   (spec_list_pagination stD stD_wf 0 2 (by decide) (by decide)).2.1,
   (spec_list_pagination stD stD_wf 1 2 (by decide) (by decide)).1⟩

example : get_appointments stD 0 2 = [bRow1, bRow2] := by decide

/-- Claim C9: the patient update shape accepts an explicit null for the
required-in-DDL fields `first_name`, `last_name`, `date_of_birth` — no
validation error is produced — and for every existing patient id (whose
stored `first_name` is non-null, as every created row's is),
`update_patient` treats those fields as present and merges the nulls into
the loaded in-session row; the store mutation is then attempted — no
ValidationError precedes it — and fails at commit with IntegrityError on
the NOT NULL columns. -/
theorem spec_explicit_null_patch_accepted (emailOk : String → Bool)
    (st : Store) (now pid : Nat) (row : PatientRow)
    (h : get_patient st pid = some row)
    (hf : row.first_name.isSome = true) :
    validatePatientUpdate emailOk rawNullNames = .ok nullNamesUpdate ∧
    applyPatientUpdate row nullNamesUpdate =
        { row with first_name := none, last_name := none,
                   date_of_birth := none } ∧
    update_patient st now pid nullNamesUpdate =
        .error { message := "NOT NULL constraint failed: patients" } := by
  refine ⟨rfl, rfl, ?_⟩
  have hne : applyPatientUpdate row nullNamesUpdate ≠ row := by
    intro heq
    have hfn : (none : Option String) = row.first_name :=
      congrArg PatientRow.first_name heq
    rw [← hfn] at hf
    simp at hf
  simp only [update_patient, h]
  rw [if_neg hne, if_pos (show patientNotNullViolated
    (applyPatientUpdate row nullNamesUpdate) = true from rfl)]

/-- Witness for claim C9 on a concrete store (with an email predicate that
rejects everything, showing the nulls never reach it). -/
theorem spec_explicit_null_patch_accepted_witness :
    validatePatientUpdate (fun _ => false) rawNullNames = .ok nullNamesUpdate ∧
    applyPatientUpdate pRow1 nullNamesUpdate =
        { pRow1 with first_name := none, last_name := none,
                     date_of_birth := none } ∧
    update_patient stA 8 1 nullNamesUpdate =
        .error { message := "NOT NULL constraint failed: patients" } :=
  ⟨(spec_explicit_null_patch_accepted (fun _ => false) stA 8 1 pRow1 rfl rfl).1,
   (spec_explicit_null_patch_accepted (fun _ => false) stA 8 1 pRow1 rfl rfl).2.1,
   (spec_explicit_null_patch_accepted (fun _ => false) stA 8 1 pRow1 rfl rfl).2.2⟩

/-- Claim C10: no operation restricts an appointment's status — the update
shape accepts every string for `status` without constraint, and for every
existing appointment id (with its required `appointment_date` stored, as on
every created row), updating with `status = s` succeeds and the record then
stored and retrievable carries `s` verbatim — whether `s` differs from the
current status (an UPDATE is flushed) or equals it (the stored value is
already `s`); in particular a cancelled appointment can be set back to
"scheduled" or any other string. -/
theorem spec_status_unvalidated (st : Store) (now aid : Nat) (s : String)
    (row : AppointmentRow) (h : get_appointment st aid = some row)
    (hdate : row.appointment_date.isSome = true) :
    validateAppointmentUpdate
        { appointment_date := .missing, description := .missing, status := .val s } =
      .ok { appointment_date := none, description := none, status := some (some s) } ∧
    ∃ res st2,
      update_appointment st now aid
          { appointment_date := none, description := none, status := some (some s) } =
        .ok (some res, st2) ∧
      res.status = some s ∧
      get_appointment st2 aid = some res := by
  refine ⟨rfl, ?_⟩
  have h' : st.appointments.find? (fun r => r.id == aid) = some row := h
  have hid : (row.id == aid) = true := by
    have hx := List.find?_some h'
    simpa using hx
  by_cases hc : applyAppointmentUpdate row
      { appointment_date := none, description := none, status := some (some s) } = row
  · refine ⟨row, st, ?_, ?_, h⟩
    · simp only [update_appointment, h]
      rw [if_pos hc]
    · have hs : some s = row.status := congrArg AppointmentRow.status hc
      exact hs.symm
  · have hdn : appointmentNotNullViolated (applyAppointmentUpdate row
        { appointment_date := none, description := none, status := some (some s) }) = false := by
      show row.appointment_date.isNone = false
      cases hrow : row.appointment_date with
      | none => rw [hrow] at hdate; simp at hdate
      | some d => simp
    refine ⟨{ row with status := some s, updated_at := some now },
            writeAppointment st aid { row with status := some s, updated_at := some now },
            ?_, rfl, ?_⟩
    · simp only [update_appointment, h]
      rw [if_neg hc, if_neg (show ¬ appointmentNotNullViolated (applyAppointmentUpdate row
          { appointment_date := none, description := none, status := some (some s) }) = true by
        rw [hdn]; exact Bool.false_ne_true)]
      rfl
    · show ((writeAppointment st aid
          { row with status := some s, updated_at := some now }).appointments).find?
            (fun r => r.id == aid) =
          some { row with status := some s, updated_at := some now }
      simp only [writeAppointment]
      exact find?_map_if (fun r => r.id == aid)
        { row with status := some s, updated_at := some now }
        hid st.appointments row h'

/-- Witness for claim C10: the cancelled appointment 2 set back to
"scheduled". -/
theorem spec_status_unvalidated_witness :
    aRow2.status = some "cancelled" ∧
    (∃ res st2,
      update_appointment stE 8 2
          { appointment_date := none, description := none,
            status := some (some "scheduled") } =
        .ok (some res, st2) ∧
      res.status = some "scheduled" ∧
      get_appointment st2 2 = some res) :=
  ⟨rfl, (spec_status_unvalidated stE 8 2 "scheduled" aRow2 rfl rfl).2⟩

example :
    update_appointment stE 8 2
        { appointment_date := none, description := none,
          status := some (some "cancelled") } =
      .ok (some aRow2, stE) := rfl

end MedCrud
